import Mathlib

/-!
# Verification of the tuma-kodi payment reconciliation code

Shallow embedding of the parts of the `tuma-kodi` rent-management backend
that the specification's claims are about:

* `server/routes/payment.py` — the M-Pesa C2B collection callback
  (`mpesa_callback`) and the STK-push initiation route (`initiate_stk_push`);
* `server/mpesa_client.py` — phone-number normalisation and validation
  (`MpesaClient._format_phone_number`, `MpesaClient.validate_phone_number`);
* `server/routes/invoices.py` — the `mark_invoice_paid` route;
* `server/models.py` — the SQLAlchemy data model, in particular the
  column-level constraints that the store enforces on insert.

Database tables are embedded as lists of rows; `filter_by(...).first()`
becomes `List.find?`, a commit of a new row becomes an append guarded by the
column constraints declared in `models.py`.  Python `float` amounts are
modelled as rationals, and SQL `Numeric(10,2)` columns likewise.
-/

namespace TumaKodi

/-- Python's `str.startswith(pre)`: `pre.data` is a (list) prefix of `s.data`. -/
def pyStartswith (s pre : String) : Bool :=
  List.isPrefixOf pre.data s.data

/-- Python's `str.strip()`: drop whitespace from both ends. -/
def pyStrip (s : String) : String :=
  ⟨((s.data.dropWhile Char.isWhitespace).reverse.dropWhile
      Char.isWhitespace).reverse⟩

/-- Python's slice `s[n:]`: drop the first `n` characters. -/
def pySlice (s : String) (n : Nat) : String :=
  ⟨s.data.drop n⟩

/-- Worker for `pyReplace`, structurally recursive on a character budget
(one character of the subject is consumed per step, so a budget of
`s.length` is exact for the non-empty patterns the client uses). -/
def pyReplaceAux (pat rep : List Char) : Nat → List Char → List Char
  | _, [] => []
  | 0, l => l
  | fuel + 1, c :: cs =>
    if List.isPrefixOf pat (c :: cs) then
      rep ++ pyReplaceAux pat rep fuel ((c :: cs).drop pat.length)
    else c :: pyReplaceAux pat rep fuel cs

/-- Python's `str.replace(pat, rep)` for the non-empty patterns used in
`MpesaClient._format_phone_number`: replace every (leftmost,
non-overlapping) occurrence of `pat` with `rep`. -/
def pyReplace (s pat rep : String) : String :=
  ⟨pyReplaceAux pat.data rep.data s.data.length s.data⟩

/-- Python truthiness of an optional string field read with `dict.get`:
`None` and the empty string are falsy, every other string is truthy
(this is what `all([...])` tests in `mpesa_callback`). -/
def truthy : Option String → Bool
  | none => false
  | some s => s != ""

/-! ## Dates: `datetime.strptime(trans_time, '%Y%m%d%H%M%S')` and `strftime('%Y-%m')` -/

/-- A parsed `datetime` value (only the fields the code uses). -/
structure DateTime6 where
  year : Nat
  month : Nat
  day : Nat
  hour : Nat
  minute : Nat
  second : Nat
deriving DecidableEq, Repr

/-- Gregorian leap year, as used by Python's `datetime` validation. -/
def isLeapYear (y : Nat) : Bool :=
  (y % 4 == 0 && y % 100 != 0) || y % 400 == 0

/-- Number of days of month `m` of year `y` (Python `datetime` calendar). -/
def daysInMonth (y m : Nat) : Nat :=
  if m = 2 then (if isLeapYear y then 29 else 28)
  else if m = 4 ∨ m = 6 ∨ m = 9 ∨ m = 11 then 30
  else 31

/-- Value of a list of decimal digit characters. -/
def digitsToNat (cs : List Char) : Nat :=
  cs.foldl (fun a c => 10 * a + (c.toNat - 48)) 0

/-- Embedding of `datetime.strptime(s, '%Y%m%d%H%M%S')`: fourteen decimal digits
`YYYYMMDDHHMMSS` forming a valid calendar date-time (Python's `datetime`
requires `1 ≤ year`, `1 ≤ month ≤ 12`, a day valid for the month, and
in-range time fields); anything else raises `ValueError`, embedded as
`none`. -/
def parseTransTime (s : String) : Option DateTime6 :=
  let cs := s.data
  if cs.length = 14 ∧ cs.all Char.isDigit then
    let y := digitsToNat (cs.take 4)
    let mo := digitsToNat ((cs.drop 4).take 2)
    let da := digitsToNat ((cs.drop 6).take 2)
    let h := digitsToNat ((cs.drop 8).take 2)
    let mi := digitsToNat ((cs.drop 10).take 2)
    let se := digitsToNat ((cs.drop 12).take 2)
    if 1 ≤ y ∧ 1 ≤ mo ∧ mo ≤ 12 ∧ 1 ≤ da ∧ da ≤ daysInMonth y mo ∧
        h ≤ 23 ∧ mi ≤ 59 ∧ se ≤ 59 then
      some ⟨y, mo, da, h, mi, se⟩
    else none
  else none

/-- Zero-pad a natural number to two decimal digits (`strftime` `%m`). -/
def pad2 (n : Nat) : String :=
  if n < 10 then "0" ++ toString n else toString n

/-- Zero-pad a natural number to four decimal digits (`strftime` `%Y`). -/
def pad4 (n : Nat) : String :=
  if n < 10 then "000" ++ toString n
  else if n < 100 then "00" ++ toString n
  else if n < 1000 then "0" ++ toString n
  else toString n

/-- Embedding of `payment_date.strftime('%Y-%m')`. -/
def fmtYearMonth (d : DateTime6) : String :=
  pad4 d.year ++ "-" ++ pad2 d.month

/-! ## Data model (`server/models.py`) -/

/-- Table `models.Apartment` (the columns the claims need). -/
structure ApartmentRow where
  id : Nat
  property_id : Nat
  apartment_number : String
  rent_amount : ℚ
deriving DecidableEq, Repr

/-- Table `models.Tenant` (the columns the claims need). -/
structure TenantRow where
  id : Nat
  user_id : Nat
  apartment_id : Option Nat
  monthly_rent : ℚ
  status : String
  name : String
  phone : String
deriving DecidableEq, Repr

/-- Table `models.Property` (the columns the claims need). -/
structure PropertyRow where
  id : Nat
  landlord_id : Nat
deriving DecidableEq, Repr

/-- Table `models.User` (the columns the claims need). -/
structure UserRow where
  id : Nat
  role : String
deriving DecidableEq, Repr

/-- Table `models.Payment`: exactly the columns declared in `models.py`
lines 150-165 (the `created_at`/`updated_at` timestamps are omitted, no
claim mentions them).  Note there is **no** `tenant_name`,
`apartment_number` or `phone_number` column — the callback handler passes
those names as constructor keywords anyway, which is what makes the
constructor raise (see `mkPayment`). -/
structure PaymentRow where
  id : Nat
  tenant_id : Option Nat
  apartment_id : Option Nat
  amount : ℚ
  payment_method : Option String
  mpesa_receipt_number : Option String
  transaction_id : Option String
  payment_date : DateTime6
  month_paid_for : Option String
  status : String
  late_fee : ℚ
deriving DecidableEq, Repr

/-- Table `models.Invoice` (the columns the claims need). -/
structure InvoiceRow where
  id : Nat
  tenant_id : Nat
  apartment_id : Option Nat
  invoice_number : String
  month_year : String
  rent_amount : ℚ
  late_fee : ℚ
  other_charges : ℚ
  total_amount : ℚ
  status : String
  payment_id : Option Nat
deriving DecidableEq, Repr

/-- The ledger store: one list of rows per table, plus the next value of the
`payments` primary-key sequence. -/
structure DBState where
  properties : List PropertyRow
  apartments : List ApartmentRow
  tenants : List TenantRow
  payments : List PaymentRow
  invoices : List InvoiceRow
  nextPaymentId : Nat
deriving DecidableEq, Repr

/-- Store-level insert of a Payment row, i.e. `db.session.add(payment)`
followed by `db.session.commit()` checked against the column constraints of
`models.py`: `payments.tenant_id` is declared `nullable=False`
(models.py line 154), so a row whose `tenant_id` is `none` is rejected by
PostgreSQL with an `IntegrityError` (embedded as `none`).  Note that
`mpesa_receipt_number` (models.py line 158) carries **no** `unique=True`
constraint, so the store accepts any number of rows sharing a receipt
number. -/
def insertPayment (st : DBState) (row : PaymentRow) : Option DBState :=
  if row.tenant_id.isSome then
    some { st with payments := st.payments ++ [row],
                   nextPaymentId := st.nextPaymentId + 1 }
  else none

/-- Number of Payment rows carrying the given M-Pesa receipt number. -/
def countReceipt (st : DBState) (r : String) : Nat :=
  (st.payments.filter (fun p => decide (p.mpesa_receipt_number = some r))).length

/-! ## The M-Pesa C2B collection callback (`routes/payment.py`, `mpesa_callback`) -/

/-- The JSON body of a C2B collection callback, already parsed from JSON
(a value of this type corresponds to a syntactically well-formed JSON
payload).  Each field is the result of `data.get(...)`: `none` stands for an
absent or falsy value.  `transAmount` is doubly optional: the outer layer is
presence/truthiness of the raw field, the inner layer is whether
`float(amount)` succeeds (its result modelled as a rational). -/
structure CallbackData where
  transID : Option String
  billRefNumber : Option String
  transAmount : Option (Option ℚ)
  msisdn : Option String
  transTime : Option String
  firstName : Option String
  middleName : Option String
  lastName : Option String
deriving DecidableEq, Repr

/-- The `{'ResultCode': _, 'ResultDesc': _}` JSON envelope together with the
HTTP status code it is returned with. -/
structure CallbackResponse where
  resultCode : Nat
  resultDesc : String
  httpStatus : Nat
deriving DecidableEq, Repr

/-- Check `if not all([mpesa_receipt, apartment_number, amount, phone_number,
trans_time])` — all five required fields present and truthy. -/
def requiredPresent (d : CallbackData) : Bool :=
  truthy d.transID && truthy d.billRefNumber && d.transAmount.isSome &&
    truthy d.msisdn && truthy d.transTime

/-- Lookup `Payment.query.filter_by(mpesa_receipt_number=mpesa_receipt).first()`. -/
def findDuplicate (st : DBState) (receipt : String) : Option PaymentRow :=
  st.payments.find? (fun p => decide (p.mpesa_receipt_number = some receipt))

/-- Lookup `Apartment.query.filter_by(apartment_number=...strip()).first()`.
The argument is the raw `BillRefNumber`; the `.strip()` of the source is the
`.trim` here. -/
def findApartment (st : DBState) (num : String) : Option ApartmentRow :=
  st.apartments.find? (fun a => decide (a.apartment_number = pyStrip num))

/-- Lookup `Tenant.query.filter_by(apartment_id=apartment.id, status='active').first()`. -/
def findActiveTenant (st : DBState) (aptId : Nat) : Option TenantRow :=
  st.tenants.find? (fun t => decide (t.apartment_id = some aptId) &&
    decide (t.status = "active"))

/-- The phone-number formatting inlined in `mpesa_callback`
(routes/payment.py lines 111-116): a number not starting with `'+'` gets a
`'+'` prepended if it starts with `'254'`, or its leading `'0'` replaced by
`'+254'`; anything else is stored unchanged. -/
def formatPhoneC2B (phone : String) : String :=
  if !(pyStartswith phone "+") then
    if pyStartswith phone "254" then "+" ++ phone
    else if pyStartswith phone "0" then "+254" ++ pySlice phone 1
    else phone
  else phone

/-- The `f"{first_name} {middle_name} {last_name}".strip()` of the source. -/
def mkTenantName (d : CallbackData) : String :=
  pyStrip ((d.firstName.getD "") ++ " " ++ (d.middleName.getD "") ++ " " ++
    (d.lastName.getD ""))

/-- The sufficiency classification of routes/payment.py lines 97-100:
`status = 'partial' if amount < expected_rent else 'completed'`, computed
into a local variable before the row construction. -/
def classifyStatus (amount expected_rent : ℚ) : String :=
  if amount < expected_rent then "partial" else "completed"

/-- The month derivation of routes/payment.py lines 102-109:
`strptime(trans_time, '%Y%m%d%H%M%S')` with a `datetime.utcnow()` fallback,
then `strftime('%Y-%m')`, computed into a local variable before the row
construction. -/
def derivedMonth (trans_time : String) (now : DateTime6) : String :=
  fmtYearMonth ((parseTransTime trans_time).getD now)

/-- Attribute names of the `models.Payment` class: its declared columns
(models.py lines 153-165) plus the relationship backrefs `tenant`,
`apartment` (models.py lines 88-89, 128) and `invoice` (models.py
line 186).  SQLAlchemy's declarative constructor accepts exactly these as
keywords (`hasattr` check). -/
def paymentModelAttrs : List String :=
  ["id", "tenant_id", "apartment_id", "amount", "payment_method",
   "mpesa_receipt_number", "transaction_id", "payment_date",
   "month_paid_for", "status", "late_fee", "created_at", "updated_at",
   "tenant", "apartment", "invoice"]

/-- Keyword-argument names of the `Payment(...)` call in the handler
(routes/payment.py lines 119-131), in source order. -/
def callbackCtorKwargNames : List String :=
  ["tenant_id", "apartment_id", "payment_date", "tenant_name",
   "apartment_number", "amount", "mpesa_receipt_number", "payment_method",
   "month_paid_for", "status", "phone_number"]

/-- The `Payment(...)` constructor call of routes/payment.py lines 119-131.
SQLAlchemy's declarative constructor raises `TypeError` on any keyword that
is not an attribute of the class; `tenant_name`, `apartment_number` and
`phone_number` are not attributes of `models.Payment`, so this call always
raises (embedded as `none`) before any row exists.  Were every keyword
valid, the row would be built from the column-valued arguments (the
remaining columns keeping their `models.py` defaults: `status` is passed
explicitly, `late_fee` defaults to 0, `transaction_id` stays null, `id` is
assigned by the primary-key sequence). -/
def mkPayment (st : DBState) (tenant_id : Option Nat)
    (apartment_id : Option Nat) (payment_date : DateTime6)
    (_tenant_name : String) (_apartment_number : String) (amount : ℚ)
    (mpesa_receipt_number : String) (payment_method : String)
    (month_paid_for : String) (status : String) (_phone_number : String) :
    Option PaymentRow :=
  if callbackCtorKwargNames.all (fun k => paymentModelAttrs.contains k) then
    some { id := st.nextPaymentId
           tenant_id := tenant_id
           apartment_id := apartment_id
           amount := amount
           payment_method := some payment_method
           mpesa_receipt_number := some mpesa_receipt_number
           transaction_id := none
           payment_date := payment_date
           month_paid_for := some month_paid_for
           status := status
           late_fee := 0 }
  else none

/-- Handler `mpesa_callback` (routes/payment.py lines 19-158).  `now` is the
value `datetime.utcnow()` would return at ingestion time (used only as the
fallback date when `TransTime` does not parse).  The whole body runs inside
`try`; the `except` branch answers `{'ResultCode': 1, 'ResultDesc': str(e)}`
with HTTP 500 after a rollback.  Two exceptions can reach it: the
`Payment(...)` constructor `TypeError` (`mkPayment` returning `none` — this
one fires on every fresh resolved callback, because the kwargs include the
undeclared `tenant_name`) and, were construction ever to succeed, a commit
rejected by the store constraints (`insertPayment` returning `none`).  The
SMS helpers called after the commit catch their own exceptions and touch no
table, so they have no effect on the embedded state. -/
def mpesaCallback (st : DBState) (d : CallbackData) (now : DateTime6) :
    CallbackResponse × DBState :=
  if requiredPresent d = false then
    (⟨1, "Missing required fields", 400⟩, st)
  else
    match d.transAmount.getD none with
    | none => (⟨1, "Invalid amount format", 400⟩, st)
    | some amount =>
      match findDuplicate st (d.transID.getD "") with
      | some _ => (⟨0, "Transaction already processed", 200⟩, st)
      | none =>
        match findApartment st (d.billRefNumber.getD "") with
        | none =>
          (⟨1, "Apartment " ++ d.billRefNumber.getD "" ++ " not found", 404⟩, st)
        | some apartment =>
          let tenantOpt := findActiveTenant st apartment.id
          let status :=
            match tenantOpt with
            | none => "pending"
            | some t => classifyStatus amount t.monthly_rent
          let payment_date := (parseTransTime (d.transTime.getD "")).getD now
          let month_paid_for := derivedMonth (d.transTime.getD "") now
          let phone_number := formatPhoneC2B (d.msisdn.getD "")
          match mkPayment st (tenantOpt.map (fun t => t.id))
              (some apartment.id) payment_date (mkTenantName d)
              (d.billRefNumber.getD "") amount (d.transID.getD "") "mpesa"
              month_paid_for status phone_number with
          | none =>
            (⟨1, "tenant_name is an invalid keyword argument for Payment",
              500⟩, st)
          | some row =>
            match insertPayment st row with
            | some st' => (⟨0, "Payment received successfully", 200⟩, st')
            | none =>
              (⟨1,
                "IntegrityError: null value in column tenant_id violates not-null constraint",
                500⟩, st)

/-! ## Gateway client phone handling (`server/mpesa_client.py`) -/

/-- Method `MpesaClient._format_phone_number` (mpesa_client.py lines 164-179):
strip spaces, `'+'` and `'-'`, then convert to the `254...` form. -/
def format_phone_number (p : String) : String :=
  let q := pyReplace (pyReplace (pyReplace p " " "") "+" "") "-" ""
  if pyStartswith q "0" then "254" ++ pySlice q 1
  else if pyStartswith q "254" then q
  else if pyStartswith q "7" || pyStartswith q "1" then "254" ++ q
  else q

/-- Method `MpesaClient.validate_phone_number` (mpesa_client.py lines 181-193); the
source's local `formatted` variable is inlined. -/
def validate_phone_number (p : String) : Bool :=
  if ((format_phone_number p).length == 12) &&
      pyStartswith (format_phone_number p) "254" then
    if pyStartswith (format_phone_number p) "2547" ||
        pyStartswith (format_phone_number p) "2541" then
      true
    else false
  else false

/-- Outcome of the phone-validation gate of the STK-push initiation route. -/
inductive StkPushOutcome where
  /-- The 400 `'Invalid phone number. ...'` response of
  routes/payment.py lines 220-223; `mpesa_client.stk_push` is never called. -/
  | invalidPhone : StkPushOutcome
  /-- `mpesa_client.stk_push` is invoked; it re-formats the phone with
  `_format_phone_number` (mpesa_client.py line 91) and submits that value. -/
  | submitted : String → StkPushOutcome
deriving DecidableEq, Repr

/-- The phone-validation slice of `initiate_stk_push`
(routes/payment.py lines 219-232): once a phone number has been resolved,
the route rejects it without any gateway request unless
`mpesa_client.validate_phone_number` accepts it, and otherwise hands the
`_format_phone_number`-normalised value to the gateway. -/
def stkPushPhoneGate (phone : String) : StkPushOutcome :=
  if validate_phone_number phone = false then .invalidPhone
  else .submitted (format_phone_number phone)

/-! ## `mark_invoice_paid` (`server/routes/invoices.py` lines 302-341) -/

/-- An HTTP response of the `mark_invoice_paid` route (status code plus the
`error`/`message` string of its JSON body, or the framework's generic error
page). -/
structure MarkPaidResponse where
  httpStatus : Nat
  body : String
deriving DecidableEq, Repr

/-- Route `mark_invoice_paid` (invoices.py lines 302-341).  `paymentIdField`
is `data.get('payment_id')`; Python's `if not payment_id` treats both a
missing field and the integer `0` as absent.  The authorization branch for
`user.role == 'landlord'` calls `is_landlord_of_tenant(user_id,
invoice.tenant_id)` (line 313) — a name that is neither defined in
invoices.py nor imported by it, so evaluating the call raises `NameError`;
the route's `try` only wraps the later commit, nothing catches it, and
Flask answers a generic HTTP 500.  For every other role no authorization
check runs at all.  On success the invoice's `status` and `payment_id` are
the only mutated fields. -/
def markInvoicePaid (st : DBState) (user : UserRow) (invoiceId : Nat)
    (paymentIdField : Option Nat) : MarkPaidResponse × DBState :=
  match st.invoices.find? (fun i => decide (i.id = invoiceId)) with
  | none => (⟨404, "Not Found"⟩, st)
  | some invoice =>
    if user.role = "landlord" then
      (⟨500, "NameError: name is_landlord_of_tenant is not defined"⟩, st)
    else if invoice.status = "paid" then
      (⟨400, "Invoice is already paid"⟩, st)
    else
      match paymentIdField with
      | none => (⟨400, "payment_id is required"⟩, st)
      | some pid =>
        if pid = 0 then (⟨400, "payment_id is required"⟩, st)
        else
          match st.payments.find? (fun p => decide (p.id = pid)) with
          | none => (⟨404, "Payment not found"⟩, st)
          | some _ =>
            (⟨200, "Invoice marked as paid"⟩,
             { st with invoices := st.invoices.map (fun i =>
                 if i.id = invoiceId then
                   { i with status := "paid", payment_id := some pid }
                 else i) })

/-! ## Concrete fixtures used by witnesses and counterexamples

The scenario of the specification: apartment `A12` whose active tenant has
`monthly_rent = 15000`, a pending invoice for that tenant and month
`2024-01`, and the collection callback
`{TransID: "QAX1", BillRefNumber: "A12", TransAmount: 15000,
MSISDN: "254712345678", TransTime: "20240105103000"}`. -/

/-- Apartment `A12`. -/
def aptA12 : ApartmentRow := ⟨1, 1, "A12", 15000⟩

/-- Active tenant of apartment `A12`, monthly rent 15000. -/
def tenJane : TenantRow := ⟨1, 2, some 1, 15000, "active", "Jane Doe", "0712345678"⟩

/-- The property housing `A12`, owned by landlord user 9. -/
def propNine : PropertyRow := ⟨1, 9⟩

/-- A pending invoice for tenant 1 and month `2024-01`, not yet linked. -/
def invJan2024 : InvoiceRow :=
  ⟨1, 1, some 1, "INV-AAAAAA", "2024-01", 15000, 0, 0, 15000, "pending", none⟩

/-- Base store for the scenario: no payments yet. -/
def stBase : DBState := ⟨[propNine], [aptA12], [tenJane], [], [invJan2024], 1⟩

/-- The collection callback of the specification's scenario. -/
def dQAX1 : CallbackData :=
  ⟨some "QAX1", some "A12", some (some 15000), some "254712345678",
   some "20240105103000", none, none, none⟩

/-- Ingestion time used for the `datetime.utcnow()` fallback. -/
def nowIngest : DateTime6 := ⟨2024, 1, 5, 10, 35, 0⟩

/-- A Payment row carrying receipt `QAX1`, as an out-of-band insert would
leave it (the handler itself never creates rows). -/
def payFirstQAX1 : PaymentRow :=
  ⟨1, some 1, some 1, 15000, some "mpesa", some "QAX1", none,
   ⟨2024, 1, 5, 10, 30, 0⟩, some "2024-01", "completed", 0⟩

/-- The scenario store holding `payFirstQAX1`. -/
def stWithQAX1 : DBState :=
  ⟨[propNine], [aptA12], [tenJane], [payFirstQAX1], [invJan2024], 2⟩

/-- A second, distinct Payment row carrying the same receipt `QAX1`. -/
def paySecondQAX1 : PaymentRow :=
  ⟨99, some 1, some 1, 15000, some "mpesa", some "QAX1", none, nowIngest,
   some "2024-01", "completed", 0⟩

/-- A callback with `TransID` missing (the JSON body itself is well-formed). -/
def dMissingTransID : CallbackData :=
  ⟨none, some "A12", some (some 5000), some "254700000001",
   some "20240210120000", none, none, none⟩

/-- A callback whose `BillRefNumber` `Z99` matches no apartment. -/
def dZ99 : CallbackData :=
  ⟨some "TX10", some "Z99", some (some 5000), some "254700000001",
   some "20240210120000", none, none, none⟩

/-- A store with apartment `B7` and no tenant at all. -/
def stVacant : DBState := ⟨[propNine], [⟨2, 1, "B7", 12000⟩], [], [], [], 1⟩

/-- A well-formed callback paying 5000 towards the vacant apartment `B7`. -/
def dB7 : CallbackData :=
  ⟨some "TX9", some "B7", some (some 5000), some "254700000001",
   some "20240210120000", none, none, none⟩

/-- A Payment that matches `invJan2024` in no respect: other tenant (2),
other month (`2023-12`), status `partial`, amount 500 below the invoice's
15000 total. -/
def payMismatch : PaymentRow :=
  ⟨7, some 2, some 1, 500, some "mpesa", some "ZZZ", none, nowIngest,
   some "2023-12", "partial", 0⟩

/-- Store for the `mark_invoice_paid` witness: the pending `invJan2024`
together with the mismatched Payment `payMismatch`. -/
def stMark : DBState :=
  ⟨[propNine], [aptA12], [tenJane], [payMismatch], [invJan2024], 8⟩

/-- The landlord of `propNine`. -/
def userLandlord : UserRow := ⟨9, "landlord"⟩

/-- An authenticated user whose role is `tenant` (not the invoice's tenant:
user 3 is unrelated to `tenJane`, whose user id is 2). -/
def userTenant : UserRow := ⟨3, "tenant"⟩

/-! ## Helper lemmas about `pyStartswith` -/

lemma isPrefixOf_append_left {l₁ l₂ m : List Char}
    (h : List.isPrefixOf (l₁ ++ l₂) m = true) : List.isPrefixOf l₁ m = true := by
  simp at h ⊢
  exact (List.prefix_append l₁ l₂).trans h

lemma pyStartswith_head {s pre : String} {c : Char} {cs : List Char}
    (hpre : pre.data = c :: cs) (h : pyStartswith s pre = true) :
    s.data.head? = some c := by
  unfold pyStartswith at h
  rw [hpre] at h
  simp at h
  obtain ⟨t, ht⟩ := h
  rw [← ht]
  rfl

lemma pyStartswith_false_of_head_ne {s pre₁ pre₂ : String} {c₁ c₂ : Char}
    {cs₁ cs₂ : List Char} (e₁ : pre₁.data = c₁ :: cs₁)
    (e₂ : pre₂.data = c₂ :: cs₂) (hne : c₁ ≠ c₂)
    (h : pyStartswith s pre₁ = true) : pyStartswith s pre₂ = false := by
  cases hb : pyStartswith s pre₂ with
  | false => rfl
  | true =>
    have k₁ := pyStartswith_head e₁ h
    have k₂ := pyStartswith_head e₂ hb
    rw [k₁] at k₂
    simp at k₂
    exact absurd k₂ hne

lemma pyStartswith_2547_254 {s : String} (h : pyStartswith s "2547" = true) :
    pyStartswith s "254" = true := by
  unfold pyStartswith at h ⊢
  exact @isPrefixOf_append_left _ ['7'] _ h

lemma pyStartswith_2541_254 {s : String} (h : pyStartswith s "2541" = true) :
    pyStartswith s "254" = true := by
  unfold pyStartswith at h ⊢
  exact @isPrefixOf_append_left _ ['1'] _ h

/-- The inlined C2B phone formatting, written as the claim reads it: the
`'+'`-guard of the source is redundant, since a string starting with `'254'`
or `'0'` cannot start with `'+'`. -/
lemma formatPhoneC2B_eq (p : String) :
    formatPhoneC2B p =
      if pyStartswith p "254" then "+" ++ p
      else if pyStartswith p "0" then "+254" ++ pySlice p 1
      else p := by
  unfold formatPhoneC2B
  cases hplus : pyStartswith p "+" with
  | true =>
    have h254 : pyStartswith p "254" = false :=
      pyStartswith_false_of_head_ne rfl rfl (by decide) hplus
    have h0 : pyStartswith p "0" = false :=
      pyStartswith_false_of_head_ne rfl rfl (by decide) hplus
    simp [h254, h0]
  | false => simp

/-- Acceptance condition: `validate_phone_number` accepts exactly the numbers whose normalised
form is twelve characters long and carries a `2547`/`2541` prefix (the
source's extra `254` test is implied by either prefix). -/
lemma validate_phone_number_iff (p : String) :
    validate_phone_number p = true ↔
      ((format_phone_number p).length = 12 ∧
        (pyStartswith (format_phone_number p) "2547" = true ∨
         pyStartswith (format_phone_number p) "2541" = true)) := by
  unfold validate_phone_number
  constructor
  · intro h
    split at h
    · split at h
      · next h1 h2 =>
          simp at h1 h2
          exact ⟨h1.1, h2⟩
      · cases h
    · cases h
  · rintro ⟨hlen, hor⟩
    have h254 : pyStartswith (format_phone_number p) "254" = true :=
      hor.elim pyStartswith_2547_254 pyStartswith_2541_254
    split
    · split
      · rfl
      · next h2 => exact absurd (by simpa using hor) h2
    · next h1 => exact absurd (by simp [hlen, h254]) h1

/-- Claim C8 (confirmed): push-payment initiation rejects the phone with an
invalid-phone error — submitting nothing to the gateway — exactly when the
normalised number is not a twelve-character `2547...`/`2541...` value;
equivalently, `validate_phone_number p` is `true` iff the normalised form of
`p` has length 12 and starts with `2547` or `2541`. -/
theorem c8_invalid_phone_iff (p : String) :
    (stkPushPhoneGate p = StkPushOutcome.invalidPhone ↔
      ¬((format_phone_number p).length = 12 ∧
        (pyStartswith (format_phone_number p) "2547" = true ∨
         pyStartswith (format_phone_number p) "2541" = true))) ∧
    (validate_phone_number p = true ↔
      ((format_phone_number p).length = 12 ∧
        (pyStartswith (format_phone_number p) "2547" = true ∨
         pyStartswith (format_phone_number p) "2541" = true))) := by
  refine ⟨?_, validate_phone_number_iff p⟩
  rw [← validate_phone_number_iff p]
  unfold stkPushPhoneGate
  constructor
  · intro h
    split at h
    · next hv => simp [hv]
    · cases h
  · intro h
    have hv : validate_phone_number p = false := by
      cases hb : validate_phone_number p with
      | false => rfl
      | true => exact absurd hb h
    simp [hv]

/-! ## Branch lemmas for `mpesaCallback` -/

lemma insertPayment_invoices {st st' : DBState} {row : PaymentRow}
    (h : insertPayment st row = some st') : st'.invoices = st.invoices := by
  unfold insertPayment at h
  split at h
  · simp only [Option.some.injEq] at h
    subst h
    rfl
  · cases h

lemma insertPayment_payments {st st' : DBState} {row : PaymentRow}
    (h : insertPayment st row = some st') :
    st'.payments = st.payments ++ [row] := by
  unfold insertPayment at h
  split at h
  · simp only [Option.some.injEq] at h
    subst h
    rfl
  · cases h

/-- The handler's row construction always raises: `tenant_name` is among
the constructor keywords of routes/payment.py lines 119-131 but is not an
attribute of `models.Payment`, so the declarative constructor rejects the
call whatever the argument values are. -/
lemma mkPayment_eq_none (st : DBState) (tenant_id apartment_id : Option Nat)
    (payment_date : DateTime6) (tenant_name apartment_number : String)
    (amount : ℚ) (mpesa_receipt_number payment_method month_paid_for
    status phone_number : String) :
    mkPayment st tenant_id apartment_id payment_date tenant_name
      apartment_number amount mpesa_receipt_number payment_method
      month_paid_for status phone_number = none := by
  unfold mkPayment
  have hkw : callbackCtorKwargNames.all
      (fun k => paymentModelAttrs.contains k) = false := by decide
  rw [hkw]
  rfl

/-- Every well-formed, non-duplicate callback that resolves an apartment —
active tenant or not — dies in the `Payment(...)` constructor: HTTP 500,
store unchanged. -/
lemma mpesaCallback_ctor_typeerror (st : DBState) (d : CallbackData)
    (now : DateTime6) (A : ℚ) (apt : ApartmentRow)
    (hp : requiredPresent d = true)
    (hamt : d.transAmount = some (some A))
    (hdup : findDuplicate st (d.transID.getD "") = none)
    (hapt : findApartment st (d.billRefNumber.getD "") = some apt) :
    mpesaCallback st d now =
      (⟨1, "tenant_name is an invalid keyword argument for Payment", 500⟩,
       st) := by
  unfold mpesaCallback
  rw [hp, hamt]
  simp only [Option.getD_some, hdup, hapt]
  simp [mkPayment_eq_none]

/-! ## Claim C1 -/

/-- Claim C1: delivering the scenario callback twice leaves ZERO Payment
rows with receipt `QAX1` (not one) — both deliveries die in the
`Payment(...)` constructor with HTTP 500 and an unchanged store, so nothing
is ever recorded and the dedup branch never engages for handler traffic.
The replay acknowledgment (ResultCode 0, no-op) fires only when a row with
the receipt already exists by other means; and the store itself enforces no
uniqueness on the receipt: a second row with the same `QAX1` passes every
constraint of `models.py` and afterwards two rows share it. -/
theorem c1_exactly_once_broken :
    countReceipt stBase "QAX1" = 0 ∧
    mpesaCallback stBase dQAX1 nowIngest =
      (⟨1, "tenant_name is an invalid keyword argument for Payment", 500⟩,
       stBase) ∧
    mpesaCallback ((mpesaCallback stBase dQAX1 nowIngest).2) dQAX1 nowIngest =
      (⟨1, "tenant_name is an invalid keyword argument for Payment", 500⟩,
       stBase) ∧
    countReceipt
      (mpesaCallback ((mpesaCallback stBase dQAX1 nowIngest).2) dQAX1
        nowIngest).2 "QAX1" = 0 ∧
    mpesaCallback stWithQAX1 dQAX1 nowIngest =
      (⟨0, "Transaction already processed", 200⟩, stWithQAX1) ∧
    (insertPayment stWithQAX1 paySecondQAX1).isSome = true ∧
    countReceipt ((insertPayment stWithQAX1 paySecondQAX1).getD stWithQAX1)
      "QAX1" = 2 := by
  decide

/-! ## Claim C2 -/

/-- Claim C2, amended: the collection-callback handler never mutates any
invoice, whatever the input and classification — it contains no invoice
logic at all (and its persisting branch is unreachable anyway); invoice
linking exists only in the separate `mark_invoice_paid` route. -/
theorem c2_handler_never_mutates_invoices (st : DBState) (d : CallbackData)
    (now : DateTime6) : (mpesaCallback st d now).2.invoices = st.invoices := by
  unfold mpesaCallback
  split
  · rfl
  · split
    · rfl
    · split
      · rfl
      · split
        · rfl
        · dsimp only
          split
          · rfl
          · split
            · next st' heq => exact insertPayment_invoices heq
            · rfl

/-- Claim C2, counterexample: at the specification's own scenario — an
amount reaching the rent (the would-be `completed` case) arriving while the
pending invoice `invJan2024` for exactly that tenant and month sits in the
store — the source answers HTTP 500 (constructor `TypeError`), persists
nothing, and the invoice stays pending and unlinked, not `paid`. -/
theorem c2_counterexample :
    tenJane.monthly_rent ≤ (15000 : ℚ) ∧
    invJan2024.tenant_id = tenJane.id ∧
    invJan2024.month_year = "2024-01" ∧
    derivedMonth "20240105103000" nowIngest = "2024-01" ∧
    invJan2024.status = "pending" ∧
    invJan2024.payment_id = none ∧
    (mpesaCallback stBase dQAX1 nowIngest).1.httpStatus = 500 ∧
    (mpesaCallback stBase dQAX1 nowIngest).2.invoices = [invJan2024] := by
  decide

/-! ## Claim C3 -/

/-- Claim C3: the handler means to store a vacant-unit payment with a null
tenant reference and status `pending` (routes/payment.py lines 88-92), but
no such Payment is ever persisted: the `Payment(...)` constructor raises
`TypeError` (undeclared `tenant_name` keyword) before the insert — and even
if it did not, `payments.tenant_id` is `nullable=False` (models.py
line 154).  The handler answers HTTP 500 and the event is lost. -/
theorem c3_vacant_unit_payment_lost :
    (mpesaCallback stVacant dB7 nowIngest).1 =
      ⟨1, "tenant_name is an invalid keyword argument for Payment", 500⟩ ∧
    (mpesaCallback stVacant dB7 nowIngest).2 = stVacant ∧
    stVacant.payments = [] ∧
    findApartment stVacant (dB7.billRefNumber.getD "") =
      some ⟨2, 1, "B7", 12000⟩ ∧
    findActiveTenant stVacant 2 = none := by
  decide

/-! ## Claim C5 -/

/-- Claim C5, amended: the handler answers HTTP 200 exactly when it
acknowledges with `ResultCode 0` (replays of an already-present receipt, and
the success path); missing fields and malformed amounts get HTTP 400, an
unresolved apartment HTTP 404 and a raised construction or insert HTTP 500,
all with `ResultCode 1` — contrary to the claim, a syntactically valid but
incomplete payload is not acknowledged with 200. -/
theorem c5_status_characterisation (st : DBState) (d : CallbackData)
    (now : DateTime6) :
    ((mpesaCallback st d now).1.httpStatus = 200 ∨
     (mpesaCallback st d now).1.httpStatus = 400 ∨
     (mpesaCallback st d now).1.httpStatus = 404 ∨
     (mpesaCallback st d now).1.httpStatus = 500) ∧
    ((mpesaCallback st d now).1.httpStatus = 200 ↔
      (mpesaCallback st d now).1.resultCode = 0) := by
  unfold mpesaCallback
  split
  · simp
  · split
    · simp
    · split
      · simp
      · split
        · simp
        · dsimp only
          split
          · simp
          · split
            · simp
            · simp

/-- Claim C5, counterexample: a syntactically valid JSON body that merely
lacks `TransID` is answered with HTTP 400, not 200. -/
theorem c5_counterexample :
    (mpesaCallback stBase dMissingTransID nowIngest).1 =
      ⟨1, "Missing required fields", 400⟩ ∧
    (mpesaCallback stBase dMissingTransID nowIngest).1.httpStatus ≠ 200 := by
  decide

/-! ## Claim C6 -/

/-- Claim C6: a callback whose (trimmed) `BillRefNumber` matches no
apartment changes nothing — in particular no Payment row is created. -/
theorem c6_unresolved_apartment_discarded (st : DBState) (d : CallbackData)
    (now : DateTime6)
    (hapt : findApartment st (d.billRefNumber.getD "") = none) :
    (mpesaCallback st d now).2 = st ∧
    (mpesaCallback st d now).2.payments = st.payments := by
  have hst : (mpesaCallback st d now).2 = st := by
    unfold mpesaCallback
    split
    · rfl
    · split
      · rfl
      · split
        · rfl
        · rw [hapt]
  exact ⟨hst, by rw [hst]⟩

/-- Witness for `c6_unresolved_apartment_discarded`: `BillRefNumber` `Z99`
matches no apartment of the scenario store. -/
theorem c6_witness :
    findApartment stBase (dZ99.billRefNumber.getD "") = none ∧
    (mpesaCallback stBase dZ99 nowIngest).2 = stBase ∧
    (mpesaCallback stBase dZ99 nowIngest).2.payments = stBase.payments := by
  refine ⟨by decide, ?_, ?_⟩
  · exact (c6_unresolved_apartment_discarded stBase dZ99 nowIngest (by decide)).1
  · exact (c6_unresolved_apartment_discarded stBase dZ99 nowIngest (by decide)).2

/-! ## Claim C4 -/

/-- Claim C4: the classification local of routes/payment.py lines 97-100 is
strict on the rent — `completed` at and above it (15000 and 15001 against
rent 15000), `partial` below (8000) — but no Payment carrying any status is
ever created: the scenario callback, resolved to the active tenant with
rent 15000 and amount exactly 15000, dies in the `Payment(...)` constructor
with HTTP 500 and zero rows persisted. -/
theorem c4_classification_never_persisted :
    classifyStatus 15000 15000 = "completed" ∧
    classifyStatus 15001 15000 = "completed" ∧
    classifyStatus 8000 15000 = "partial" ∧
    findActiveTenant stBase aptA12.id = some tenJane ∧
    tenJane.monthly_rent = 15000 ∧
    mpesaCallback stBase dQAX1 nowIngest =
      (⟨1, "tenant_name is an invalid keyword argument for Payment", 500⟩,
       stBase) ∧
    (mpesaCallback stBase dQAX1 nowIngest).2.payments = [] := by
  decide

/-! ## Claim C7 -/

/-- Claim C7: the month local of routes/payment.py lines 102-109 renders the
parsed `TransTime` as `YYYY-MM` (`20240105103000` parses and gives
`2024-01`) and falls back to the ingestion time when the parse fails — but
the value is never persisted: the scenario callback dies in the
`Payment(...)` constructor with HTTP 500 and zero rows stored. -/
theorem c7_month_derived_never_persisted :
    parseTransTime "20240105103000" = some ⟨2024, 1, 5, 10, 30, 0⟩ ∧
    derivedMonth "20240105103000" nowIngest = "2024-01" ∧
    parseTransTime "garbage" = none ∧
    derivedMonth "garbage" ⟨2023, 12, 31, 23, 59, 59⟩ = "2023-12" ∧
    mpesaCallback stBase dQAX1 nowIngest =
      (⟨1, "tenant_name is an invalid keyword argument for Payment", 500⟩,
       stBase) ∧
    (mpesaCallback stBase dQAX1 nowIngest).2.payments = [] := by
  decide

/-! ## Claim C9 -/

/-- Claim C9: the phone local of routes/payment.py lines 111-116 is the raw
`MSISDN` with a plus prepended for a `254` prefix, a leading zero replaced
by `+254`, and unchanged in every other case (bare local numbers and
numbers already starting with a plus included) — but it is never stored on
any Payment: the scenario callback dies in the `Payment(...)` constructor
with HTTP 500 and persists nothing. -/
theorem c9_phone_formatting_never_stored :
    (∀ p, formatPhoneC2B p =
      if pyStartswith p "254" then "+" ++ p
      else if pyStartswith p "0" then "+254" ++ pySlice p 1
      else p) ∧
    formatPhoneC2B "254712345678" = "+254712345678" ∧
    formatPhoneC2B "0712345678" = "+254712345678" ∧
    formatPhoneC2B "712345678" = "712345678" ∧
    formatPhoneC2B "+254712345678" = "+254712345678" ∧
    mpesaCallback stBase dQAX1 nowIngest =
      (⟨1, "tenant_name is an invalid keyword argument for Payment", 500⟩,
       stBase) ∧
    (mpesaCallback stBase dQAX1 nowIngest).2.payments = [] := by
  exact ⟨formatPhoneC2B_eq, by decide, by decide, by decide, by decide,
    by decide, by decide⟩

/-! ## Claim C10 -/

lemma markInvoicePaid_success
    (st : DBState) (user : UserRow) (invoiceId : Nat) (pidF : Option Nat)
    (inv : InvoiceRow) (pid : Nat)
    (hrole : user.role ≠ "landlord")
    (hinv : st.invoices.find? (fun i => decide (i.id = invoiceId)) = some inv)
    (hnp : inv.status ≠ "paid")
    (hpidF : pidF = some pid)
    (hpid0 : pid ≠ 0)
    (hpay : (st.payments.find? (fun p => decide (p.id = pid))).isSome = true) :
    markInvoicePaid st user invoiceId pidF =
      (⟨200, "Invoice marked as paid"⟩,
       { st with invoices := st.invoices.map (fun i =>
           if i.id = invoiceId then
             { i with status := "paid", payment_id := some pid }
           else i) }) := by
  unfold markInvoicePaid
  rw [hinv, hpidF]
  dsimp only
  obtain ⟨pay, hq⟩ := Option.isSome_iff_exists.mp hpay
  rw [if_neg hrole, if_neg hnp, if_neg hpid0, hq]

lemma markInvoicePaid_success_inv
    {st : DBState} {user : UserRow} {invoiceId : Nat} {pidF : Option Nat}
    (h : (markInvoicePaid st user invoiceId pidF).1.httpStatus = 200) :
    user.role ≠ "landlord" ∧
    ∃ inv, st.invoices.find? (fun i => decide (i.id = invoiceId)) = some inv ∧
      inv.status ≠ "paid" ∧
      ∃ pid, pidF = some pid ∧
        (st.payments.find? (fun p => decide (p.id = pid))).isSome = true := by
  unfold markInvoicePaid at h
  split at h
  · simp at h
  · next inv hinv =>
    split at h
    · simp at h
    · next hrole =>
      split at h
      · simp at h
      · next hnp =>
        split at h
        · simp at h
        · next pid =>
          split at h
          · simp at h
          · next hpid0 =>
            split at h
            · simp at h
            · next pay hq =>
              exact ⟨hrole, inv, hinv, hnp, pid, rfl, by rw [hq]; rfl⟩

/-- Claim C10, amended: `mark_invoice_paid` checks nothing about the
relation between the Payment and the invoice (tenant, month, status, amount
— none is consulted), but the precondition list of the claim is wrong about
authorization: a caller whose role is `landlord` always receives HTTP 500,
because the route calls the undefined helper `is_landlord_of_tenant`
(a `NameError`), while every non-landlord caller bypasses authorization
entirely and succeeds exactly when the invoice exists, is not already
`paid`, and the supplied `payment_id` names an existing Payment. -/
theorem c10_mark_paid_behaviour
    (st : DBState) (user : UserRow) (invoiceId : Nat) (pidF : Option Nat)
    (hwf : ∀ p ∈ st.payments, p.id ≠ 0) :
    (∀ inv, st.invoices.find? (fun i => decide (i.id = invoiceId)) = some inv →
      user.role = "landlord" →
      markInvoicePaid st user invoiceId pidF =
        (⟨500, "NameError: name is_landlord_of_tenant is not defined"⟩, st)) ∧
    (user.role ≠ "landlord" →
      ((markInvoicePaid st user invoiceId pidF).1.httpStatus = 200 ↔
        ∃ inv,
          st.invoices.find? (fun i => decide (i.id = invoiceId)) = some inv ∧
          inv.status ≠ "paid" ∧
          ∃ pid, pidF = some pid ∧
            (st.payments.find? (fun p => decide (p.id = pid))).isSome = true)) ∧
    (∀ inv pid, user.role ≠ "landlord" →
      st.invoices.find? (fun i => decide (i.id = invoiceId)) = some inv →
      inv.status ≠ "paid" →
      pidF = some pid →
      (st.payments.find? (fun p => decide (p.id = pid))).isSome = true →
      markInvoicePaid st user invoiceId pidF =
        (⟨200, "Invoice marked as paid"⟩,
         { st with invoices := st.invoices.map (fun i =>
             if i.id = invoiceId then
               { i with status := "paid", payment_id := some pid }
             else i) })) := by
  have hsucc : ∀ inv pid, user.role ≠ "landlord" →
      st.invoices.find? (fun i => decide (i.id = invoiceId)) = some inv →
      inv.status ≠ "paid" →
      pidF = some pid →
      (st.payments.find? (fun p => decide (p.id = pid))).isSome = true →
      markInvoicePaid st user invoiceId pidF =
        (⟨200, "Invoice marked as paid"⟩,
         { st with invoices := st.invoices.map (fun i =>
             if i.id = invoiceId then
               { i with status := "paid", payment_id := some pid }
             else i) }) := by
    intro inv pid hrole hinv hnp hpidF hpay
    obtain ⟨pay, hq⟩ := Option.isSome_iff_exists.mp hpay
    have hid : pay.id = pid := by
      have hp := List.find?_some hq
      simpa using hp
    have hmem := List.mem_of_find?_eq_some hq
    have hpid0 : pid ≠ 0 := hid ▸ hwf pay hmem
    exact markInvoicePaid_success st user invoiceId pidF inv pid hrole hinv
      hnp hpidF hpid0 hpay
  refine ⟨?_, ?_, hsucc⟩
  · intro inv hinv hrole
    unfold markInvoicePaid
    rw [hinv]
    dsimp only
    rw [if_pos hrole]
  · intro hrole
    constructor
    · intro h
      obtain ⟨_, inv, hinv, hnp, pid, hpidF, hpay⟩ :=
        markInvoicePaid_success_inv h
      exact ⟨inv, hinv, hnp, pid, hpidF, hpay⟩
    · rintro ⟨inv, hinv, hnp, pid, hpidF, hpay⟩
      rw [hsucc inv pid hrole hinv hnp hpidF hpay]

/-- Claim C10, counterexample: the landlord of the invoice's property, with
the invoice pending and Payment 7 in the store — every precondition the
claim lists satisfied — still receives HTTP 500 with nothing updated: the
authorization check is a call to an undefined name. -/
theorem c10_counterexample :
    userLandlord.role = "landlord" ∧
    propNine.landlord_id = userLandlord.id ∧
    tenJane.apartment_id = some aptA12.id ∧
    aptA12.property_id = propNine.id ∧
    invJan2024.tenant_id = tenJane.id ∧
    invJan2024.status = "pending" ∧
    (stMark.payments.find? (fun p => decide (p.id = 7))).isSome = true ∧
    markInvoicePaid stMark userLandlord 1 (some 7) =
      (⟨500, "NameError: name is_landlord_of_tenant is not defined"⟩,
       stMark) := by
  decide

/-- Witness for `c10_mark_paid_behaviour`: an unrelated caller with role
`tenant` marks `invJan2024` paid with `payMismatch` — another tenant's
partial 500 for another month — no authorization, no relation checked. -/
theorem c10_witness :
    payMismatch.tenant_id = some 2 ∧
    invJan2024.tenant_id = 1 ∧
    payMismatch.month_paid_for = some "2023-12" ∧
    invJan2024.month_year = "2024-01" ∧
    payMismatch.status = "partial" ∧
    payMismatch.amount < invJan2024.total_amount ∧
    markInvoicePaid stMark userTenant 1 (some 7) =
      (⟨200, "Invoice marked as paid"⟩,
       { stMark with invoices :=
           [{ invJan2024 with status := "paid", payment_id := some 7 }] }) := by
  refine ⟨by decide, by decide, by decide, by decide, by decide, by decide, ?_⟩
  have h := (c10_mark_paid_behaviour stMark userTenant 1 (some 7)
    (by decide)).2.2 invJan2024 7 (by decide) (by decide) (by decide) rfl
    (by decide)
  rw [h]
  decide

/-! ## Remaining witnesses -/

/-- Witness for `c2_handler_never_mutates_invoices` at the scenario. -/
theorem c2_witness :
    (mpesaCallback stBase dQAX1 nowIngest).2.invoices = stBase.invoices :=
  c2_handler_never_mutates_invoices stBase dQAX1 nowIngest

/-- Witness for `c5_status_characterisation` at the scenario callback. -/
theorem c5_witness :
    (mpesaCallback stBase dQAX1 nowIngest).1.httpStatus = 200 ↔
      (mpesaCallback stBase dQAX1 nowIngest).1.resultCode = 0 :=
  (c5_status_characterisation stBase dQAX1 nowIngest).2

/-- Witness for `c8_invalid_phone_iff`: `0712345678` normalises to the
twelve-character `254712345678` and is accepted, while `0700` cannot be
normalised to such a value and is rejected without any gateway request. -/
theorem c8_witness :
    validate_phone_number "0712345678" = true ∧
    stkPushPhoneGate "0700" = StkPushOutcome.invalidPhone :=
  ⟨(c8_invalid_phone_iff "0712345678").2.mpr (by decide),
   (c8_invalid_phone_iff "0700").1.mpr (by decide)⟩

end TumaKodi
